import Mathlib

/-!
Verification development for a lottery record-keeping backend
(`backend/main.py`, `backend/schemas.py`, `backend/database.py`).

The Python code is shallowly embedded: Python strings become `List Char`,
MongoDB collections become Lean lists of documents, the wall clock and
ObjectId generation become explicit counters threaded through a `DB`
state, and every code path that can raise becomes an `Except`/`Option`
value.  Definitions mirror the source functions; theorems then settle
the specification claims.
-/

deriving instance DecidableEq for Except

namespace Backend

/-- A Python string, modelled as its list of characters. -/
abbrev PyStr := List Char

/-- Characters treated as whitespace by Python `str.strip` / `str.split()`
(for the ASCII range used by this backend). -/
def isPySpace (c : Char) : Bool :=
  c = ' ' || c = '\t' || c = '\n' || c = '\r' || c = '\x0b' || c = '\x0c'

/-- Python `str.strip()`: drop leading and trailing whitespace. -/
def pyStrip (s : PyStr) : PyStr :=
  ((s.dropWhile isPySpace).reverse.dropWhile isPySpace).reverse

/-- Python `str.lower()` restricted to ASCII letters. -/
def pyLower (s : PyStr) : PyStr :=
  s.map fun c => if 'A' ≤ c && c ≤ 'Z' then Char.ofNat (c.toNat + 32) else c

/-- Python `str.split(sep)` for a one-character separator: keeps empty
pieces, always returns at least one piece. -/
def pySplitSep (sep : Char) (s : PyStr) : List PyStr :=
  s.splitOn sep

/-- Python `str.split()` with no argument: tokens are the maximal runs of
non-whitespace characters; no empty tokens are produced. -/
def pySplitWs (s : PyStr) : List PyStr :=
  (s.splitOnP isPySpace).filter (fun t => !t.isEmpty)

/-- Python `str.splitlines()` for newline-separated text: one entry per
line, with no trailing empty entry when the string ends in a newline,
and no entries at all for the empty string. -/
def pySplitlines (s : PyStr) : List PyStr :=
  if s.isEmpty then []
  else if s.getLast? = some '\n' then (s.splitOn '\n').dropLast
  else s.splitOn '\n'

/-- Numeric value of a decimal digit character. -/
def digitVal (c : Char) : Option Nat :=
  if '0' ≤ c && c ≤ '9' then some (c.toNat - '0'.toNat) else none

/-- Accumulate a decimal digit string into a natural number; `none` as
soon as a non-digit appears. -/
def parseDigits : List Char → Nat → Option Nat
  | [], acc => some acc
  | c :: cs, acc =>
    match digitVal c with
    | some d => parseDigits cs (acc * 10 + d)
    | none => none

/-- Python `int(s)` on the token strings this backend feeds it: optional
surrounding whitespace, an optional sign, then a nonempty run of decimal
digits; anything else raises `ValueError`. -/
def pyInt (s : PyStr) : Except String Int :=
  let t := pyStrip s
  match t with
  | '-' :: rest =>
    if rest.isEmpty then .error "invalid literal for int"
    else match parseDigits rest 0 with
      | some n => .ok (-(n : Int))
      | none => .error "invalid literal for int"
  | '+' :: rest =>
    if rest.isEmpty then .error "invalid literal for int"
    else match parseDigits rest 0 with
      | some n => .ok (n : Int)
      | none => .error "invalid literal for int"
  | _ =>
    if t.isEmpty then .error "invalid literal for int"
    else match parseDigits t 0 with
      | some n => .ok (n : Int)
      | none => .error "invalid literal for int"

/-- A calendar date as produced by pydantic's date parsing. -/
structure PyDate where
  year : Nat
  month : Nat
  day : Nat
deriving DecidableEq, Repr

/-- Leap-year rule of the proleptic Gregorian calendar. -/
def isLeap (y : Nat) : Bool :=
  (y % 4 = 0 && y % 100 ≠ 0) || y % 400 = 0

/-- Number of days in a month. -/
def daysInMonth (y m : Nat) : Nat :=
  if m = 2 then (if isLeap y then 29 else 28)
  else if m = 4 || m = 6 || m = 9 || m = 11 then 30
  else 31

/-- All characters are decimal digits. -/
def allDigits (l : List Char) : Bool :=
  l.all fun c => '0' ≤ c && c ≤ '9'

/-- Pydantic date parsing of a string field: strict `YYYY-MM-DD`, the
components must form a real calendar date (Python `date` years run
1..9999). -/
def parseDate (s : PyStr) : Except String PyDate :=
  match s.splitOn '-' with
  | [ys, ms, ds] =>
    if ys.length = 4 && ms.length = 2 && ds.length = 2 &&
        allDigits ys && allDigits ms && allDigits ds then
      match parseDigits ys 0, parseDigits ms 0, parseDigits ds 0 with
      | some y, some m, some d =>
        if 1 ≤ y && y ≤ 9999 && 1 ≤ m && m ≤ 12 && 1 ≤ d && d ≤ daysInMonth y m then
          .ok ⟨y, m, d⟩
        else .error "Input should be a valid date"
      | _, _, _ => .error "Input should be a valid date"
    else .error "Input should be a valid date"
  | _ => .error "Input should be a valid date"

/-- Key under which dates compare; for parsed calendar dates (month ≤ 12,
day ≤ 31) this agrees with calendar order, matching how the store sorts
the `date` field. -/
def PyDate.key (d : PyDate) : Nat :=
  d.year * 10000 + d.month * 100 + d.day

-- --- Match engine (`count_matches` in main.py) ---

/-- Result of `count_matches`. -/
structure MatchResult where
  main : Nat
  euro : Nat
  total : Nat
deriving DecidableEq, Repr

/-- `len(set(a) & set(b))`: the number of distinct values occurring in
both lists. -/
def setInterCard (a b : List Int) : Nat :=
  (a.dedup.filter fun x => decide (x ∈ b)).length

/-- The `main`/`euro` number lists a record contributes to matching. -/
structure NumSets where
  main : List Int
  euro : List Int
deriving DecidableEq, Repr

/-- `count_matches(pred, draw)` from main.py. -/
def count_matches (pred draw : NumSets) : MatchResult :=
  let main_matches := setInterCard pred.main draw.main
  let euro_matches := setInterCard pred.euro draw.euro
  ⟨main_matches, euro_matches, main_matches + euro_matches⟩

lemma setInterCard_eq_card (a b : List Int) :
    setInterCard a b = (a.toFinset ∩ b.toFinset).card := by
  unfold setInterCard
  have hnd : (a.dedup.filter fun x => decide (x ∈ b)).Nodup :=
    (a.nodup_dedup).filter _
  rw [← List.toFinset_card_of_nodup hnd, List.toFinset_filter]
  have : a.dedup.toFinset = a.toFinset := by
    ext x; simp [List.mem_dedup]
  rw [this]
  congr 1
  rw [← Finset.filter_mem_eq_inter]
  apply Finset.filter_congr
  intro x _
  simp [List.mem_toFinset]

lemma setInterCard_comm (a b : List Int) :
    setInterCard a b = setInterCard b a := by
  rw [setInterCard_eq_card, setInterCard_eq_card, Finset.inter_comm]

-- --- Validation layer (`Draw` in schemas.py) ---

/-- The raw field values handed to the `Draw` pydantic model: the date is
still a string, the number lists are already integers. -/
structure RawDraw where
  date : PyStr
  main : List Int
  euro : List Int
  source : Option PyStr
deriving DecidableEq, Repr

/-- A validated draw record (a `Draw` instance). -/
structure DrawData where
  date : PyDate
  main : List Int
  euro : List Int
  source : Option PyStr
deriving DecidableEq, Repr

/-- One entry of a pydantic `ValidationError`: the field it is located at
and the reason. -/
structure FieldError where
  field : String
  msg : String
deriving DecidableEq, Repr

/-- The `main` field checks: pydantic's `min_items=5`/`max_items=5`
length constraints followed by the `validate_main` field validator of
schemas.py.  `none` means the field is accepted. -/
def validate_main (v : List Int) : Option String :=
  if v.length < 5 then some "List should have at least 5 items"
  else if 5 < v.length then some "List should have at most 5 items"
  else if v.dedup.length ≠ 5 then some "Main numbers must be unique and length 5"
  else if ¬ (v.all fun n => decide (1 ≤ n) && decide (n ≤ 50)) then
    some "Main numbers must be in 1..50"
  else none

/-- The `euro` field checks: `min_items=2`/`max_items=2` followed by the
`validate_euro` field validator of schemas.py. -/
def validate_euro (v : List Int) : Option String :=
  if v.length < 2 then some "List should have at least 2 items"
  else if 2 < v.length then some "List should have at most 2 items"
  else if v.dedup.length ≠ 2 then some "Euro numbers must be unique and length 2"
  else if ¬ (v.all fun n => decide (1 ≤ n) && decide (n ≤ 12)) then
    some "Euro numbers must be in 1..12"
  else none

/-- Constructing `Draw(...)`: pydantic validates every field and either
returns the model instance or raises a `ValidationError` carrying one
located error per violated field. -/
def Draw.validate (r : RawDraw) : Except (List FieldError) DrawData :=
  match parseDate r.date, validate_main r.main, validate_euro r.euro with
  | .ok d, none, none => .ok ⟨d, r.main, r.euro, r.source⟩
  | dr, mr, er =>
    .error
      ((match dr with | .error e => [FieldError.mk "date" e] | .ok _ => [])
        ++ (match mr with | some e => [FieldError.mk "main" e] | none => [])
        ++ (match er with | some e => [FieldError.mk "euro" e] | none => []))

/-- Render a `ValidationError` to the `str(e)` string captured by the
bulk endpoint's error descriptors. -/
def renderErrors (es : List FieldError) : String :=
  String.intercalate "; " (es.map fun e => e.field ++ ": " ++ e.msg)

-- --- Record store gateway (database.py) ---

/-- A stored document: the collection-specific data plus the generated
`_id` and the two server-assigned timestamps.  Real timestamps and
ObjectIds are modelled by naturals supplied by the caller (the `DB`
state threads a counter for both). -/
structure Doc (α : Type) where
  data : α
  id : Nat
  created_at : Nat
  updated_at : Nat
deriving DecidableEq, Repr

/-- `create_document(collection_name, data)` from database.py: insert the
data extended with `created_at` and `updated_at`, each taken from its
own `_now()` call — the source reads the clock twice, so the two values
can differ — and return the stored document including its generated
identifier.  `newId` stands for the generated ObjectId; `now1` and
`now2` stand for the two successive `_now()` readings. -/
def create_document {α : Type} (coll : List (Doc α)) (data : α) (newId now1 now2 : Nat) :
    List (Doc α) × Doc α :=
  let doc : Doc α := ⟨data, newId, now1, now2⟩
  (coll ++ [doc], doc)

/-- Python truthiness of an `Optional[int]`: `None` and `0` are falsy. -/
def pyTruthyInt : Option Int → Bool
  | none => false
  | some n => decide (n ≠ 0)

/-- `get_documents(collection_name, filter_dict, limit, sort)` from
database.py: filter, optionally sort, and apply the limit only when it
is truthy. -/
def get_documents {α : Type} (coll : List α) (filt : α → Bool)
    (lim : Option Int) (sort : Option (α → α → Bool)) : List α :=
  let c := coll.filter filt
  let c := match sort with
    | some le => c.mergeSort le
    | none => c
  if pyTruthyInt lim then c.take (lim.getD 0).toNat else c

/-- Stored prediction data: the prediction fields plus the `matched`
object `\x7b"latest_match": ...\x7d` attached at creation time. -/
structure PredData where
  main : List Int
  euro : List Int
  seed : Option PyStr
  method : PyStr
  notes : Option PyStr
deriving DecidableEq, Repr

/-- What `save_prediction` persists: the prediction together with
`matched.latest_match` (absent when no draw existed). -/
structure StoredPred where
  pred : PredData
  latest_match : Option MatchResult
deriving DecidableEq, Repr

/-- The database state: the two collections plus the ObjectId/clock
counters. -/
structure DB where
  draws : List (Doc DrawData)
  preds : List (Doc StoredPred)
  nextId : Nat
  clock : Nat
deriving DecidableEq, Repr

/-- Insert one draw document through `create_document`; the monotone
clock counter advances by one per `_now()` reading, so the two readings
of the call are `db.clock` and `db.clock + 1`. -/
def DB.insertDraw (db : DB) (d : DrawData) : DB × Doc DrawData :=
  let r := create_document db.draws d db.nextId db.clock (db.clock + 1)
  ({ db with draws := r.1, nextId := db.nextId + 1, clock := db.clock + 2 }, r.2)

/-- Insert one prediction document through `create_document`; the
monotone clock counter advances by one per `_now()` reading. -/
def DB.insertPred (db : DB) (p : StoredPred) : DB × Doc StoredPred :=
  let r := create_document db.preds p db.nextId db.clock (db.clock + 1)
  ({ db with preds := r.1, nextId := db.nextId + 1, clock := db.clock + 2 }, r.2)

-- --- Draw endpoints (main.py) ---

/-- Outcome of `POST /draws`. -/
inductive AddDrawResult where
  | conflict
  | created (doc : Doc DrawData)
deriving DecidableEq, Repr

/-- `db["draw"].find_one(\x7b"date": dt\x7d)`. -/
def find_one_by_date (draws : List (Doc DrawData)) (dt : PyDate) : Option (Doc DrawData) :=
  draws.find? fun doc => decide (doc.data.date = dt)

/-- `add_draw` (`POST /draws`): 409 conflict when a draw with the same
date exists, otherwise insert through `create_document`. -/
def add_draw (db : DB) (d : DrawData) : DB × AddDrawResult :=
  match find_one_by_date db.draws d.date with
  | some _ => (db, .conflict)
  | none =>
    let r := db.insertDraw d
    (r.1, .created r.2)

/-- `db["draw"].find_one(sort=[("date", -1)])`: the first document of the
collection sorted by date descending. -/
def latestDraw (draws : List (Doc DrawData)) : Option (Doc DrawData) :=
  (draws.mergeSort fun a b => decide (PyDate.key b.data.date ≤ PyDate.key a.data.date)).head?

/-- `save_prediction` (`POST /predictions`): attach the match against the
latest draw when one exists, then persist. -/
def save_prediction (db : DB) (p : PredData) : DB × Doc StoredPred :=
  let matched : Option MatchResult :=
    match latestDraw db.draws with
    | some l => some (count_matches ⟨p.main, p.euro⟩ ⟨l.data.main, l.data.euro⟩)
    | none => none
  db.insertPred ⟨p, matched⟩

/-- Response of `GET /insights/latest`. -/
inductive InsightsResult where
  | noLatest
  | withLatest (latest_date : PyDate) (matched_predictions : List (Nat × MatchResult))
deriving DecidableEq, Repr

/-- `db["prediction"].find().sort("created_at", -1)`. -/
def sortPredsDesc (l : List (Doc StoredPred)) : List (Doc StoredPred) :=
  l.mergeSort fun a b => decide (b.created_at ≤ a.created_at)

/-- `latest_insights` (`GET /insights/latest`): report absence when no
draw exists; otherwise emit, over the predictions in created-descending
order, those whose match total against the latest draw is positive. -/
def latest_insights (db : DB) : InsightsResult :=
  match latestDraw db.draws with
  | none => .noLatest
  | some l =>
    .withLatest l.data.date
      ((sortPredsDesc db.preds).filterMap fun p =>
        let m := count_matches ⟨p.data.pred.main, p.data.pred.euro⟩ ⟨l.data.main, l.data.euro⟩
        if 0 < m.total then some (p.id, m) else none)

-- --- Bulk ingestion (`add_draws_bulk` in main.py) ---

/-- The `BulkDraws` request body of schemas.py. -/
structure BulkDraws where
  csv : Option PyStr
  json : Option (List RawDraw)
  text : Option PyStr
deriving DecidableEq, Repr

/-- One per-record error descriptor of the bulk response: the key names
the originating format and position exactly as built in main.py
(`row` is 1-based, `json_index` 0-based, `line` 1-based). -/
inductive ErrorDesc where
  | row (n : Nat) (error : String)
  | json_index (n : Nat) (error : String)
  | line (n : Nat) (error : String)
deriving DecidableEq, Repr

/-- `csv.reader` over the payload's csv block, for the quote-free cells
this format carries: one row per line, cells split on commas, an empty
line yielding an empty row. -/
def csvRows (s : PyStr) : List (List PyStr) :=
  (pySplitlines s).map fun line => if line.isEmpty then [] else line.splitOn ','

/-- The csv skip test of main.py:
`not row or row[0].strip().lower() in ("date", "data")`. -/
def csvSkip (row : List PyStr) : Bool :=
  match row with
  | [] => true
  | c0 :: _ =>
    decide (pyLower (pyStrip c0) = "date".toList) ||
      decide (pyLower (pyStrip c0) = "data".toList)

/-- `list(map(int, toks))`: left-to-right, raising at the first bad
token. -/
def mapIntTokens : List PyStr → Except String (List Int)
  | [] => .ok []
  | t :: ts => do
    let n ← pyInt t
    let ns ← mapIntTokens ts
    .ok (n :: ns)

/-- Collapse a pydantic `ValidationError` into the caught-exception
string of the bulk error descriptors. -/
def validateToStr (r : RawDraw) : Except String DrawData :=
  match Draw.validate r with
  | .ok d => .ok d
  | .error es => .error (renderErrors es)

/-- Parse one csv data row:
`Draw(date=row[0], main=list(map(int, row[1:6])), euro=list(map(int, row[6:8])))`.
The empty-row case cannot reach this function (the skip test filters
it); it stands for the `row[0]` IndexError Python would raise. -/
def parseCsvRow (row : List PyStr) : Except String DrawData :=
  match row with
  | [] => .error "list index out of range"
  | c0 :: rest => do
    let main ← mapIntTokens (rest.take 5)
    let euro ← mapIntTokens ((rest.drop 5).take 2)
    validateToStr ⟨c0, main, euro, none⟩

/-- Parse one structured-list element: `Draw(**item)`. -/
def parseJsonItem (r : RawDraw) : Except String DrawData :=
  validateToStr r

/-- Parse the three semicolon fields of a free-text line once isolated:
only the first 5 whitespace tokens of the main field and the first 2 of
the euro field are consumed. -/
def parseTextFields (p0 p1 p2 : PyStr) : Except String DrawData := do
  let main ← mapIntTokens ((pySplitWs p1).take 5)
  let euro ← mapIntTokens ((pySplitWs p2).take 2)
  validateToStr ⟨p0, main, euro, none⟩

/-- Parse one free-text line:
`parts = [p.strip() for p in line.split(";")]` then
`Draw(date=parts[0], main=list(map(int, parts[1].split()[:5])), euro=list(map(int, parts[2].split()[:2])))`.
Missing fields reproduce Python's IndexError, in the order the arguments
are evaluated (the main field's integers are parsed before `parts[2]`
is accessed). -/
def parseTextLine (line : PyStr) : Except String DrawData :=
  match (line.splitOn ';').map pyStrip with
  | p0 :: p1 :: p2 :: _ => parseTextFields p0 p1 p2
  | [_p0, p1] => do
    let _main ← mapIntTokens ((pySplitWs p1).take 5)
    .error "list index out of range"
  | _ => .error "list index out of range"

/-- The free-text skip test of main.py: `not line.strip()`. -/
def textSkip (line : PyStr) : Bool :=
  (pyStrip line).isEmpty

/-- One section of the bulk loop: enumerate the items from index `i`,
skip the items the section's skip test filters, and for each remaining
item either commit it through `create_document` (appending its id to
`inserted`) or append an error descriptor built by `mkErr` from the
item's enumeration index.  A failure is caught per item and never stops
the loop. -/
def processItems {α : Type} (parse : α → Except String DrawData) (skip : α → Bool)
    (mkErr : Nat → String → ErrorDesc) :
    Nat → List α → DB → DB × List Nat × List ErrorDesc
  | _, [], db => (db, [], [])
  | i, x :: xs, db =>
    if skip x then processItems parse skip mkErr (i + 1) xs db
    else
      match parse x with
      | .ok d =>
        let r := db.insertDraw d
        let rest := processItems parse skip mkErr (i + 1) xs r.1
        (rest.1, r.2.id :: rest.2.1, rest.2.2)
      | .error e =>
        let rest := processItems parse skip mkErr (i + 1) xs db
        (rest.1, rest.2.1, mkErr i e :: rest.2.2)

/-- `add_draws_bulk` (`POST /draws/bulk`): process the csv block, then
the structured list, then the free-text block (each only when truthy),
and return the concatenated inserted ids and error descriptors. -/
def add_draws_bulk (db : DB) (p : BulkDraws) : DB × List Nat × List ErrorDesc :=
  let rc :=
    match p.csv with
    | some s =>
      if s.isEmpty then (db, [], [])
      else processItems parseCsvRow csvSkip (fun i e => .row (i + 1) e) 0 (csvRows s) db
    | none => (db, [], [])
  let rj :=
    match p.json with
    | some items =>
      if items.isEmpty then (rc.1, [], [])
      else processItems parseJsonItem (fun _ => false) (fun i e => .json_index i e) 0 items rc.1
    | none => (rc.1, [], [])
  let rt :=
    match p.text with
    | some s =>
      if s.isEmpty then (rj.1, [], [])
      else processItems parseTextLine textSkip (fun i e => .line (i + 1) e) 0 (pySplitlines s) rj.1
    | none => (rj.1, [], [])
  (rt.1, rc.2.1 ++ rj.2.1 ++ rt.2.1, rc.2.2 ++ rj.2.2 ++ rt.2.2)

-- --- Payload-only descriptions of the bulk outcome ---

/-- The records of one section that parse and validate successfully,
computed from the payload alone. -/
def sectionSuccesses {α : Type} (parse : α → Except String DrawData) (skip : α → Bool)
    (items : List α) : List DrawData :=
  items.filterMap fun x => if skip x then none else (parse x).toOption

/-- The error descriptors of one section, computed from the payload
alone. -/
def sectionErrors {α : Type} (parse : α → Except String DrawData) (skip : α → Bool)
    (mkErr : Nat → String → ErrorDesc) (i : Nat) (items : List α) : List ErrorDesc :=
  (items.enumFrom i).filterMap fun ix =>
    if skip ix.2 then none
    else match parse ix.2 with
      | .error e => some (mkErr ix.1 e)
      | .ok _ => none

/-- All successfully parsed records of a bulk payload, in processing
order, independent of any store state. -/
def bulkSuccesses (p : BulkDraws) : List DrawData :=
  (match p.csv with
    | some s => if s.isEmpty then [] else sectionSuccesses parseCsvRow csvSkip (csvRows s)
    | none => [])
  ++ (match p.json with
    | some items =>
      if items.isEmpty then [] else sectionSuccesses parseJsonItem (fun _ => false) items
    | none => [])
  ++ (match p.text with
    | some s =>
      if s.isEmpty then [] else sectionSuccesses parseTextLine textSkip (pySplitlines s)
    | none => [])

/-- All error descriptors of a bulk payload, in processing order,
independent of any store state. -/
def bulkErrors (p : BulkDraws) : List ErrorDesc :=
  (match p.csv with
    | some s =>
      if s.isEmpty then []
      else sectionErrors parseCsvRow csvSkip (fun i e => .row (i + 1) e) 0 (csvRows s)
    | none => [])
  ++ (match p.json with
    | some items =>
      if items.isEmpty then []
      else sectionErrors parseJsonItem (fun _ => false) (fun i e => .json_index i e) 0 items
    | none => [])
  ++ (match p.text with
    | some s =>
      if s.isEmpty then []
      else sectionErrors parseTextLine textSkip (fun i e => .line (i + 1) e) 0 (pySplitlines s)
    | none => [])

-- --- Helper lemmas ---

lemma insertDraw_draws (db : DB) (d : DrawData) :
    ((db.insertDraw d).1).draws = db.draws ++ [(db.insertDraw d).2] := rfl

lemma insertDraw_data (db : DB) (d : DrawData) : ((db.insertDraw d).2).data = d := rfl

lemma insertDraw_preds (db : DB) (d : DrawData) : ((db.insertDraw d).1).preds = db.preds := rfl

lemma validate_main_none_iff (v : List Int) :
    validate_main v = none ↔ v.length = 5 ∧ v.Nodup ∧ ∀ n ∈ v, 1 ≤ n ∧ n ≤ 50 := by
  unfold validate_main
  split_ifs with h1 h2 h3 h4
  · simp only [reduceCtorEq, false_iff]
    rintro ⟨hl, -, -⟩; omega
  · simp only [reduceCtorEq, false_iff]
    rintro ⟨hl, -, -⟩; omega
  · simp only [reduceCtorEq, false_iff]
    rintro ⟨hl, hnd, -⟩
    exact h3 (by rw [List.dedup_eq_self.mpr hnd, hl])
  · simp only [true_iff]
    have hlen : v.length = 5 := by omega
    have hdedup : v.dedup = v := by
      refine (List.dedup_sublist v).eq_of_length ?_
      omega
    refine ⟨hlen, List.dedup_eq_self.mp hdedup, ?_⟩
    intro n hn
    rw [List.all_eq_true] at h4
    have := h4 n hn
    simp only [Bool.and_eq_true, decide_eq_true_eq] at this
    exact this
  · simp only [reduceCtorEq, false_iff]
    rintro ⟨-, -, hrange⟩
    refine h4 ?_
    rw [List.all_eq_true]
    intro n hn
    have := hrange n hn
    simp [this.1, this.2]

lemma validate_euro_none_iff (v : List Int) :
    validate_euro v = none ↔ v.length = 2 ∧ v.Nodup ∧ ∀ n ∈ v, 1 ≤ n ∧ n ≤ 12 := by
  unfold validate_euro
  split_ifs with h1 h2 h3 h4
  · simp only [reduceCtorEq, false_iff]
    rintro ⟨hl, -, -⟩; omega
  · simp only [reduceCtorEq, false_iff]
    rintro ⟨hl, -, -⟩; omega
  · simp only [reduceCtorEq, false_iff]
    rintro ⟨hl, hnd, -⟩
    exact h3 (by rw [List.dedup_eq_self.mpr hnd, hl])
  · simp only [true_iff]
    have hlen : v.length = 2 := by omega
    have hdedup : v.dedup = v := by
      refine (List.dedup_sublist v).eq_of_length ?_
      omega
    refine ⟨hlen, List.dedup_eq_self.mp hdedup, ?_⟩
    intro n hn
    rw [List.all_eq_true] at h4
    have := h4 n hn
    simp only [Bool.and_eq_true, decide_eq_true_eq] at this
    exact this
  · simp only [reduceCtorEq, false_iff]
    rintro ⟨-, -, hrange⟩
    refine h4 ?_
    rw [List.all_eq_true]
    intro n hn
    have := hrange n hn
    simp [this.1, this.2]

-- --- Claim theorems ---

/-- C3: `count_matches` returns in `main` the cardinality of the
intersection of the two main sets, in `euro` that of the two euro sets,
and in `total` their sum; the result is unchanged when the two records
swap roles; and on the spec's example it returns main 3, euro 1,
total 4. -/
theorem count_matches_spec :
    (∀ p d : NumSets,
        (count_matches p d).main = (p.main.toFinset ∩ d.main.toFinset).card ∧
        (count_matches p d).euro = (p.euro.toFinset ∩ d.euro.toFinset).card ∧
        (count_matches p d).total = (count_matches p d).main + (count_matches p d).euro) ∧
    (∀ p d : NumSets, count_matches p d = count_matches d p) ∧
    count_matches ⟨[1, 2, 3, 4, 5], [1, 2]⟩ ⟨[3, 4, 5, 6, 7], [2, 12]⟩ =
      ⟨3, 1, 4⟩ := by
  refine ⟨fun p d => ⟨setInterCard_eq_card _ _, setInterCard_eq_card _ _, rfl⟩,
    fun p d => ?_, by decide⟩
  simp only [count_matches]
  rw [setInterCard_comm p.main d.main, setInterCard_comm p.euro d.euro]

/-- C8 (amended): `create_document` stores exactly the input data
extended with `created_at` taken from the first clock reading of the
call and `updated_at` from the second — each the current UTC time at
its own read, so the two values can differ — appends that record to
the collection, and returns it carrying the generated identifier. -/
theorem create_document_spec {α : Type} (coll : List (Doc α)) (data : α)
    (newId now1 now2 : Nat) :
    (create_document coll data newId now1 now2).2.data = data ∧
    (create_document coll data newId now1 now2).2.created_at = now1 ∧
    (create_document coll data newId now1 now2).2.updated_at = now2 ∧
    (create_document coll data newId now1 now2).2.id = newId ∧
    (create_document coll data newId now1 now2).1
      = coll ++ [(create_document coll data newId now1 now2).2] :=
  ⟨rfl, rfl, rfl, rfl, rfl⟩

/-- C8 counterexample: the two timestamps come from two separate clock
readings, so at a call whose readings differ (here 0 and 1) the stored
record's `created_at` and `updated_at` are not equal — the claimed
equality at creation is not guaranteed. -/
theorem create_document_counterexample :
    (create_document ([] : List (Doc Nat)) 0 0 0 1).2.created_at
      ≠ (create_document ([] : List (Doc Nat)) 0 0 0 1).2.updated_at := by
  decide

/-- C9: `get_documents` with `limit = 0` behaves exactly like no limit
at all — the limit is applied only when truthy — so every matching
document is returned rather than none. -/
theorem get_documents_zero_limit_spec {α : Type} (coll : List α) (filt : α → Bool)
    (sort : Option (α → α → Bool)) :
    get_documents coll filt (some 0) sort = get_documents coll filt none sort ∧
    (get_documents coll filt (some 0) sort).length = (coll.filter filt).length := by
  constructor
  · simp [get_documents, pyTruthyInt]
  · cases sort with
    | none => simp [get_documents, pyTruthyInt]
    | some le =>
      simp only [get_documents, pyTruthyInt, decide_not]
      simp [(List.mergeSort_perm (coll.filter filt) le).length_eq]

/-- C2: a raw `Draw` input is accepted exactly when its date parses,
`main` has exactly 5 pairwise-distinct integers in 1..50 and `euro`
exactly 2 pairwise-distinct integers in 1..12; any rejection is a
`ValidationError` whose entries name only the fields `date`, `main` and
`euro`, with each violated clause contributing an entry naming its
field. -/
theorem draw_validation_spec :
    (∀ r : RawDraw,
      (∃ d, Draw.validate r = .ok d) ↔
        ((∃ dt, parseDate r.date = .ok dt) ∧
          (r.main.length = 5 ∧ r.main.Nodup ∧ ∀ n ∈ r.main, 1 ≤ n ∧ n ≤ 50) ∧
          (r.euro.length = 2 ∧ r.euro.Nodup ∧ ∀ n ∈ r.euro, 1 ≤ n ∧ n ≤ 12))) ∧
    (∀ r es, Draw.validate r = .error es →
      es ≠ [] ∧
      (∀ e ∈ es, e.field = "date" ∨ e.field = "main" ∨ e.field = "euro") ∧
      ((∀ dt, parseDate r.date ≠ .ok dt) → ∃ e ∈ es, e.field = "date") ∧
      (validate_main r.main ≠ none → ∃ e ∈ es, e.field = "main") ∧
      (validate_euro r.euro ≠ none → ∃ e ∈ es, e.field = "euro")) := by
  constructor
  · intro r
    rw [← validate_main_none_iff, ← validate_euro_none_iff]
    unfold Draw.validate
    cases hd : parseDate r.date <;>
      cases hm : validate_main r.main <;>
        cases he : validate_euro r.euro <;> simp
  · intro r es h
    unfold Draw.validate at h
    cases hd : parseDate r.date <;>
      cases hm : validate_main r.main <;>
        cases he : validate_euro r.euro <;>
      rw [hd, hm, he] at h <;> simp only [reduceCtorEq, Except.error.injEq] at h <;>
      subst h <;> simp [hd, hm, he]

lemma dateDesc_trans :
    ∀ a b c : Doc DrawData,
      decide (PyDate.key b.data.date ≤ PyDate.key a.data.date) = true →
      decide (PyDate.key c.data.date ≤ PyDate.key b.data.date) = true →
      decide (PyDate.key c.data.date ≤ PyDate.key a.data.date) = true := by
  intro a b c hab hbc
  simp only [decide_eq_true_eq] at *
  omega

lemma dateDesc_total :
    ∀ a b : Doc DrawData,
      (decide (PyDate.key b.data.date ≤ PyDate.key a.data.date) ||
        decide (PyDate.key a.data.date ≤ PyDate.key b.data.date)) = true := by
  intro a b
  rcases Nat.le_total (PyDate.key b.data.date) (PyDate.key a.data.date) with h | h <;>
    simp [h]

/-- The first document of the date-descending sort exists for a nonempty
collection, belongs to it, and carries a maximal date. -/
lemma latestDraw_spec (draws : List (Doc DrawData)) (h : draws ≠ []) :
    ∃ l, latestDraw draws = some l ∧ l ∈ draws ∧
      ∀ d ∈ draws, PyDate.key d.data.date ≤ PyDate.key l.data.date := by
  unfold latestDraw
  have hperm := List.mergeSort_perm draws
    (fun a b => decide (PyDate.key b.data.date ≤ PyDate.key a.data.date))
  have hsorted := List.sorted_mergeSort dateDesc_trans dateDesc_total draws
  cases hL : draws.mergeSort
      (fun a b => decide (PyDate.key b.data.date ≤ PyDate.key a.data.date)) with
  | nil =>
    rw [hL] at hperm
    exact absurd (hperm.symm.eq_nil) h
  | cons l t =>
    rw [hL] at hperm hsorted
    refine ⟨l, rfl, hperm.mem_iff.mp (List.mem_cons_self l t), ?_⟩
    intro d hd
    rcases List.mem_cons.mp (hperm.mem_iff.mpr hd) with h' | h'
    · rw [h']
    · have := (List.pairwise_cons.mp hsorted).1 d h'
      simpa using this

lemma latestDraw_nil : latestDraw [] = none := by
  simp [latestDraw]

lemma sortPredsDesc_perm (l : List (Doc StoredPred)) : (sortPredsDesc l).Perm l :=
  List.mergeSort_perm l _

lemma predDesc_trans :
    ∀ a b c : Doc StoredPred,
      decide (b.created_at ≤ a.created_at) = true →
      decide (c.created_at ≤ b.created_at) = true →
      decide (c.created_at ≤ a.created_at) = true := by
  intro a b c hab hbc
  simp only [decide_eq_true_eq] at *
  omega

lemma predDesc_total :
    ∀ a b : Doc StoredPred,
      (decide (b.created_at ≤ a.created_at) || decide (a.created_at ≤ b.created_at)) = true := by
  intro a b
  rcases Nat.le_total b.created_at a.created_at with h | h <;> simp [h]

lemma sortPredsDesc_sorted (l : List (Doc StoredPred)) :
    (sortPredsDesc l).Pairwise fun a b => b.created_at ≤ a.created_at := by
  have := List.sorted_mergeSort predDesc_trans predDesc_total l
  exact this.imp fun h => of_decide_eq_true h

/-- C7: creating a draw whose date already exists yields the 409
conflict and leaves the store untouched; in particular, after a
successful creation any second creation with the same date conflicts. -/
theorem add_draw_conflict_spec :
    (∀ db d, (∃ doc ∈ db.draws, doc.data.date = d.date) →
        add_draw db d = (db, .conflict)) ∧
    (∀ db d db1 doc, add_draw db d = (db1, .created doc) →
        ∀ d', d'.date = d.date →
          (add_draw db1 d').2 = .conflict ∧ (add_draw db1 d').1 = db1) := by
  have hfind : ∀ (draws : List (Doc DrawData)) (dt : PyDate),
      (∃ doc ∈ draws, doc.data.date = dt) → ∃ doc, find_one_by_date draws dt = some doc := by
    intro draws dt ⟨doc, hmem, hdt⟩
    have : (draws.find? fun doc => decide (doc.data.date = dt)).isSome :=
      List.find?_isSome.mpr ⟨doc, hmem, by simp [hdt]⟩
    rcases Option.isSome_iff_exists.mp this with ⟨doc', h'⟩
    exact ⟨doc', h'⟩
  constructor
  · intro db d hex
    rcases hfind db.draws d.date hex with ⟨doc, hdoc⟩
    unfold add_draw
    rw [hdoc]
  · intro db d db1 doc h d' hdate
    unfold add_draw at h
    cases hf : find_one_by_date db.draws d.date with
    | some doc' =>
      rw [hf] at h
      exact absurd (congrArg Prod.snd h) (by simp)
    | none =>
      rw [hf] at h
      have hdb1 : db1 = (db.insertDraw d).1 := (congrArg Prod.fst h).symm
      have hdoc : doc = (db.insertDraw d).2 :=
        (AddDrawResult.created.inj (congrArg Prod.snd h)).symm
      have hmem : ∃ q ∈ db1.draws, q.data.date = d'.date := by
        refine ⟨(db.insertDraw d).2, ?_, ?_⟩
        · rw [hdb1, insertDraw_draws]
          exact List.mem_append_right _ (List.mem_singleton.mpr rfl)
        · rw [insertDraw_data, hdate]
      rcases hfind db1.draws d'.date hmem with ⟨q, hq⟩
      unfold add_draw
      rw [hq]
      exact ⟨rfl, rfl⟩

/-- C10: saving a prediction with an empty draw collection succeeds —
the record is persisted with `matched.latest_match` absent; and when at
least one draw exists, `matched.latest_match` is the `count_matches`
result against the latest-dated draw. -/
theorem save_prediction_empty_spec :
    (∀ db p, db.draws = [] →
        (save_prediction db p).2.data = ⟨p, none⟩ ∧
        (save_prediction db p).1.preds.map Doc.data
          = db.preds.map Doc.data ++ [⟨p, none⟩]) ∧
    (∀ db p, db.draws ≠ [] →
        ∃ l, latestDraw db.draws = some l ∧ l ∈ db.draws ∧
          (∀ d ∈ db.draws, PyDate.key d.data.date ≤ PyDate.key l.data.date) ∧
          (save_prediction db p).2.data
            = ⟨p, some (count_matches ⟨p.main, p.euro⟩ ⟨l.data.main, l.data.euro⟩)⟩ ∧
          (save_prediction db p).1.preds.map Doc.data
            = db.preds.map Doc.data
              ++ [⟨p, some (count_matches ⟨p.main, p.euro⟩ ⟨l.data.main, l.data.euro⟩)⟩]) := by
  constructor
  · intro db p hempty
    unfold save_prediction
    rw [hempty, latestDraw_nil]
    exact ⟨rfl, by simp [DB.insertPred, create_document]⟩
  · intro db p hne
    rcases latestDraw_spec db.draws hne with ⟨l, hl, hmem, hmax⟩
    refine ⟨l, hl, hmem, hmax, ?_, ?_⟩
    · unfold save_prediction
      rw [hl]
      rfl
    · unfold save_prediction
      rw [hl]
      simp [DB.insertPred, create_document]

/-- C4: `latest_insights` on an empty draw collection reports absence;
otherwise it picks a maximally-dated draw and emits, over the
predictions in created-descending order, exactly those whose match
total against that draw is positive, each with its identifier and match
result. -/
theorem latest_insights_spec :
    (∀ db : DB, db.draws = [] → latest_insights db = .noLatest) ∧
    (∀ db : DB, db.draws ≠ [] →
      ∃ l, latestDraw db.draws = some l ∧ l ∈ db.draws ∧
        (∀ d ∈ db.draws, PyDate.key d.data.date ≤ PyDate.key l.data.date) ∧
        ∃ sorted : List (Doc StoredPred), sorted.Perm db.preds ∧
          sorted.Pairwise (fun a b => b.created_at ≤ a.created_at) ∧
          latest_insights db = .withLatest l.data.date
            (sorted.filterMap fun q =>
              let m := count_matches ⟨q.data.pred.main, q.data.pred.euro⟩
                ⟨l.data.main, l.data.euro⟩
              if 0 < m.total then some (q.id, m) else none) ∧
          ∀ i m, (i, m) ∈ (sorted.filterMap fun q =>
              let mr := count_matches ⟨q.data.pred.main, q.data.pred.euro⟩
                ⟨l.data.main, l.data.euro⟩
              if 0 < mr.total then some (q.id, mr) else none) ↔
            ∃ q ∈ db.preds, q.id = i ∧
              m = count_matches ⟨q.data.pred.main, q.data.pred.euro⟩
                ⟨l.data.main, l.data.euro⟩ ∧ 0 < m.total) := by
  constructor
  · intro db hempty
    unfold latest_insights
    rw [hempty, latestDraw_nil]
  · intro db hne
    rcases latestDraw_spec db.draws hne with ⟨l, hl, hmem, hmax⟩
    refine ⟨l, hl, hmem, hmax, sortPredsDesc db.preds, sortPredsDesc_perm db.preds,
      sortPredsDesc_sorted db.preds, ?_, ?_⟩
    · unfold latest_insights
      rw [hl]
    · intro i m
      constructor
      · intro hmem'
        rcases List.mem_filterMap.mp hmem' with ⟨q, hq, hval⟩
        simp only at hval
        by_cases hpos :
            0 < (count_matches ⟨q.data.pred.main, q.data.pred.euro⟩
              ⟨l.data.main, l.data.euro⟩).total
        · rw [if_pos hpos] at hval
          rcases Prod.mk.inj (Option.some.inj hval) with ⟨hid, hm⟩
          exact ⟨q, (sortPredsDesc_perm db.preds).mem_iff.mp hq, hid, hm.symm,
            hm ▸ hpos⟩
        · rw [if_neg hpos] at hval
          exact absurd hval (by simp)
      · rintro ⟨q, hq, hid, hm, hpos⟩
        refine List.mem_filterMap.mpr ⟨q, (sortPredsDesc_perm db.preds).mem_iff.mpr hq, ?_⟩
        simp only
        rw [if_pos (hm ▸ hpos), hid, ← hm]

/-- Per-section invariant of the bulk loop: every success (and only the
successes) is committed, the other collection is untouched, the
inserted-id list has one entry per success, and the error list holds
exactly the descriptors of the failing items with their enumeration
indices. -/
lemma processItems_spec {α : Type} (parse : α → Except String DrawData) (skip : α → Bool)
    (mkErr : Nat → String → ErrorDesc) (items : List α) :
    ∀ (i : Nat) (db : DB),
      ((processItems parse skip mkErr i items db).1.draws.map Doc.data
          = db.draws.map Doc.data ++ sectionSuccesses parse skip items) ∧
      ((processItems parse skip mkErr i items db).1.preds = db.preds) ∧
      ((processItems parse skip mkErr i items db).2.1.length
          = (sectionSuccesses parse skip items).length) ∧
      ((processItems parse skip mkErr i items db).2.2
          = sectionErrors parse skip mkErr i items) := by
  induction items with
  | nil =>
    intro i db
    simp [processItems, sectionSuccesses, sectionErrors]
  | cons x xs ih =>
    intro i db
    by_cases hs : skip x
    · have h := ih (i + 1) db
      simpa [processItems, sectionSuccesses, sectionErrors, List.enumFrom, hs] using h
    · cases hp : parse x with
      | ok d =>
        have h := ih (i + 1) (db.insertDraw d).1
        have hred : processItems parse skip mkErr i (x :: xs) db
            = ((processItems parse skip mkErr (i + 1) xs (db.insertDraw d).1).1,
                (db.insertDraw d).2.id
                  :: (processItems parse skip mkErr (i + 1) xs (db.insertDraw d).1).2.1,
                (processItems parse skip mkErr (i + 1) xs (db.insertDraw d).1).2.2) := by
          simp [processItems, hs, hp]
        rw [hred]
        refine ⟨?_, ?_, ?_, ?_⟩
        · simp only [h.1, insertDraw_draws, List.map_append]
          simp [sectionSuccesses, List.filterMap_cons, Except.toOption, hs, hp, insertDraw_data,
            List.append_assoc]
        · simp only [h.2.1, insertDraw_preds]
        · simp only [List.length_cons, h.2.2.1]
          simp [sectionSuccesses, List.filterMap_cons, Except.toOption, hs, hp]
        · simp only [h.2.2.2]
          simp [sectionErrors, List.enumFrom, List.filterMap_cons, hs, hp]
      | error e =>
        have h := ih (i + 1) db
        have hred : processItems parse skip mkErr i (x :: xs) db
            = ((processItems parse skip mkErr (i + 1) xs db).1,
                (processItems parse skip mkErr (i + 1) xs db).2.1,
                mkErr i e :: (processItems parse skip mkErr (i + 1) xs db).2.2) := by
          simp [processItems, hs, hp]
        rw [hred]
        refine ⟨?_, ?_, ?_, ?_⟩
        · simp only [h.1]
          simp [sectionSuccesses, List.filterMap_cons, Except.toOption, hs, hp]
        · exact h.2.1
        · simp only [h.2.2.1]
          simp [sectionSuccesses, List.filterMap_cons, Except.toOption, hs, hp]
        · simp only [h.2.2.2]
          simp [sectionErrors, List.enumFrom, List.filterMap_cons, hs, hp]

/-- C1: bulk ingestion commits every record that parses and validates,
independent of any other record's failure: the final draw collection is
the initial one extended with exactly the payload's successful records
(a list computed from the payload alone), one inserted id is returned
per success, and the response's error list is exactly the payload's
per-record failure descriptors — the request always yields this normal
response, even when every record failed. -/
theorem bulk_partial_failure_spec (db : DB) (p : BulkDraws) :
    (add_draws_bulk db p).1.draws.map Doc.data
      = db.draws.map Doc.data ++ bulkSuccesses p ∧
    (add_draws_bulk db p).2.1.length = (bulkSuccesses p).length ∧
    (add_draws_bulk db p).2.2 = bulkErrors p := by
  unfold add_draws_bulk bulkSuccesses bulkErrors
  rcases p with ⟨csv, json, text⟩
  rcases csv with _ | s₁ <;> rcases json with _ | s₂ <;> rcases text with _ | s₃ <;>
    simp only <;>
    first
    | (refine ⟨?_, ?_, ?_⟩ <;>
        (repeat' split_ifs) <;>
        simp [processItems_spec, List.append_assoc])

/-- C5: a free-text line is split on semicolons into date, main tokens
and euro tokens, the parse consuming only the first 5 main tokens and
first 2 euro tokens (equal prefixes give equal results, whatever the
extras); the spec's example line parses to the expected record; a line
that strips to nothing is skipped, contributing neither record nor
error; and in a concrete payload whose third line has only 4 main
tokens, the good first line is committed while the short line is
reported as a validation error under its 1-based line number 3 (the
blank line 2 being skipped). -/
theorem text_format_spec :
    parseTextLine "2024-01-05; 1 2 3 4 5; 6 7".toList
      = .ok ⟨⟨2024, 1, 5⟩, [1, 2, 3, 4, 5], [6, 7], none⟩ ∧
    (∀ p0 p1 p1' p2, (pySplitWs p1).take 5 = (pySplitWs p1').take 5 →
        parseTextFields p0 p1 p2 = parseTextFields p0 p1' p2) ∧
    (∀ p0 p1 p2 p2', (pySplitWs p2).take 2 = (pySplitWs p2').take 2 →
        parseTextFields p0 p1 p2 = parseTextFields p0 p1 p2') ∧
    (∀ line : PyStr, pyStrip line = [] →
        ∀ parse mkErr i (xs : List PyStr) db,
          processItems parse textSkip mkErr i (line :: xs) db
            = processItems parse textSkip mkErr (i + 1) xs db) ∧
    (add_draws_bulk ⟨[], [], 0, 0⟩
        ⟨none, none, some "2024-01-05; 1 2 3 4 5; 6 7\n\n2024-01-06; 1 2 3 4; 6 7".toList⟩).2
      = ([0], [.line 3 "main: List should have at least 5 items"]) ∧
    (add_draws_bulk ⟨[], [], 0, 0⟩
        ⟨none, none, some "2024-01-05; 1 2 3 4 5; 6 7\n\n2024-01-06; 1 2 3 4; 6 7".toList⟩).1.draws.map
      Doc.data = [⟨⟨2024, 1, 5⟩, [1, 2, 3, 4, 5], [6, 7], none⟩] := by
  refine ⟨by decide, ?_, ?_, ?_, by decide, by decide⟩
  · intro p0 p1 p1' p2 h
    unfold parseTextFields
    rw [h]
  · intro p0 p1 p2 p2' h
    unfold parseTextFields
    rw [h]
  · intro line h parse mkErr i xs db
    have hskip : textSkip line = true := by simp [textSkip, h]
    simp [processItems, hskip]

/-- C6: a csv row is read as date in column 1, main numbers in columns
2–6, euro numbers in columns 7–8; a row whose first cell
case-insensitively strips to a date label is skipped, contributing
neither record nor error regardless of what follows it; and a payload
mixing one valid and one invalid row yields exactly one inserted id and
one error descriptor carrying the row's 1-based position, the valid
row's record being persisted whether it precedes or follows the invalid
one. -/
theorem csv_format_spec :
    (∀ row, csvSkip row = true →
        ∀ parse mkErr i (xs : List (List PyStr)) db,
          processItems parse csvSkip mkErr i (row :: xs) db
            = processItems parse csvSkip mkErr (i + 1) xs db) ∧
    (∀ c0 rest, pyLower (pyStrip c0) = "date".toList → csvSkip (c0 :: rest) = true) ∧
    parseCsvRow (("2024-01-05".toList) :: ["1", "2", "3", "4", "5", "6", "7"].map String.toList)
      = .ok ⟨⟨2024, 1, 5⟩, [1, 2, 3, 4, 5], [6, 7], none⟩ ∧
    (add_draws_bulk ⟨[], [], 0, 0⟩
        ⟨some "date,a,b\n2024-01-05,1,2,3,4,5,6,7\n2024-01-06,1,2,3,4,4,6,7".toList,
          none, none⟩).2
      = ([0], [.row 3 "main: Main numbers must be unique and length 5"]) ∧
    (add_draws_bulk ⟨[], [], 0, 0⟩
        ⟨some "date,a,b\n2024-01-05,1,2,3,4,5,6,7\n2024-01-06,1,2,3,4,4,6,7".toList,
          none, none⟩).1.draws.map Doc.data
      = [⟨⟨2024, 1, 5⟩, [1, 2, 3, 4, 5], [6, 7], none⟩] ∧
    (add_draws_bulk ⟨[], [], 0, 0⟩
        ⟨some "2024-01-06,1,2,3,4,4,6,7\n2024-01-05,1,2,3,4,5,6,7".toList,
          none, none⟩).2
      = ([0], [.row 1 "main: Main numbers must be unique and length 5"]) ∧
    (add_draws_bulk ⟨[], [], 0, 0⟩
        ⟨some "2024-01-06,1,2,3,4,4,6,7\n2024-01-05,1,2,3,4,5,6,7".toList,
          none, none⟩).1.draws.map Doc.data
      = [⟨⟨2024, 1, 5⟩, [1, 2, 3, 4, 5], [6, 7], none⟩] := by
  refine ⟨?_, ?_, by decide, by decide, by decide, by decide, by decide⟩
  · intro row h parse mkErr i xs db
    simp [processItems, h]
  · intro c0 rest h
    simp [csvSkip, h]

-- --- Witnesses: each claim theorem with hypotheses, applied at a
-- concrete input with every hypothesis discharged there ---

/-- Witness for C2: an input violating all three fields is rejected with
an error naming each of them. -/
theorem draw_validation_witness :
    (∃ e ∈ [FieldError.mk "date" "Input should be a valid date",
        FieldError.mk "main" "Main numbers must be unique and length 5",
        FieldError.mk "euro" "Euro numbers must be in 1..12"], e.field = "date") ∧
    (∃ e ∈ [FieldError.mk "date" "Input should be a valid date",
        FieldError.mk "main" "Main numbers must be unique and length 5",
        FieldError.mk "euro" "Euro numbers must be in 1..12"], e.field = "main") ∧
    (∃ e ∈ [FieldError.mk "date" "Input should be a valid date",
        FieldError.mk "main" "Main numbers must be unique and length 5",
        FieldError.mk "euro" "Euro numbers must be in 1..12"], e.field = "euro") :=
  ⟨(draw_validation_spec.2 ⟨"2024-13-05".toList, [1, 1, 2, 3, 4], [1, 13], none⟩ _
      (by decide)).2.2.1 (by
        intro dt hdt
        rw [show parseDate "2024-13-05".toList = Except.error "Input should be a valid date"
          from by decide] at hdt
        exact Except.noConfusion hdt),
    (draw_validation_spec.2 ⟨"2024-13-05".toList, [1, 1, 2, 3, 4], [1, 13], none⟩ _
      (by decide)).2.2.2.1 (by decide),
    (draw_validation_spec.2 ⟨"2024-13-05".toList, [1, 1, 2, 3, 4], [1, 13], none⟩ _
      (by decide)).2.2.2.2 (by decide)⟩

/-- Witness for C4: the empty store reports absence, and a store with
one draw and one prediction yields the full insight description. -/
theorem latest_insights_witness :
    latest_insights ⟨[], [], 0, 0⟩ = InsightsResult.noLatest ∧
    (∃ l, latestDraw (DB.mk [⟨⟨⟨2024, 1, 5⟩, [1, 2, 3, 4, 5], [6, 7], none⟩, 0, 0, 0⟩]
          [⟨⟨⟨[1, 2, 3, 4, 5], [6, 7], none, "consensus".toList, none⟩, none⟩, 1, 1, 1⟩]
          2 2).draws = some l ∧
      l ∈ (DB.mk [⟨⟨⟨2024, 1, 5⟩, [1, 2, 3, 4, 5], [6, 7], none⟩, 0, 0, 0⟩]
          [⟨⟨⟨[1, 2, 3, 4, 5], [6, 7], none, "consensus".toList, none⟩, none⟩, 1, 1, 1⟩]
          2 2).draws ∧
      (∀ d ∈ (DB.mk [⟨⟨⟨2024, 1, 5⟩, [1, 2, 3, 4, 5], [6, 7], none⟩, 0, 0, 0⟩]
          [⟨⟨⟨[1, 2, 3, 4, 5], [6, 7], none, "consensus".toList, none⟩, none⟩, 1, 1, 1⟩]
          2 2).draws, PyDate.key d.data.date ≤ PyDate.key l.data.date) ∧
      ∃ sorted : List (Doc StoredPred),
        sorted.Perm (DB.mk [⟨⟨⟨2024, 1, 5⟩, [1, 2, 3, 4, 5], [6, 7], none⟩, 0, 0, 0⟩]
          [⟨⟨⟨[1, 2, 3, 4, 5], [6, 7], none, "consensus".toList, none⟩, none⟩, 1, 1, 1⟩]
          2 2).preds ∧
        sorted.Pairwise (fun a b => b.created_at ≤ a.created_at) ∧
        latest_insights (DB.mk [⟨⟨⟨2024, 1, 5⟩, [1, 2, 3, 4, 5], [6, 7], none⟩, 0, 0, 0⟩]
          [⟨⟨⟨[1, 2, 3, 4, 5], [6, 7], none, "consensus".toList, none⟩, none⟩, 1, 1, 1⟩]
          2 2) = .withLatest l.data.date
            (sorted.filterMap fun q =>
              let m := count_matches ⟨q.data.pred.main, q.data.pred.euro⟩
                ⟨l.data.main, l.data.euro⟩
              if 0 < m.total then some (q.id, m) else none) ∧
        ∀ i m, (i, m) ∈ (sorted.filterMap fun q =>
            let mr := count_matches ⟨q.data.pred.main, q.data.pred.euro⟩
              ⟨l.data.main, l.data.euro⟩
            if 0 < mr.total then some (q.id, mr) else none) ↔
          ∃ q ∈ (DB.mk [⟨⟨⟨2024, 1, 5⟩, [1, 2, 3, 4, 5], [6, 7], none⟩, 0, 0, 0⟩]
              [⟨⟨⟨[1, 2, 3, 4, 5], [6, 7], none, "consensus".toList, none⟩, none⟩, 1, 1, 1⟩]
              2 2).preds, q.id = i ∧
            m = count_matches ⟨q.data.pred.main, q.data.pred.euro⟩
              ⟨l.data.main, l.data.euro⟩ ∧ 0 < m.total) :=
  ⟨latest_insights_spec.1 ⟨[], [], 0, 0⟩ rfl,
    latest_insights_spec.2
      (DB.mk [⟨⟨⟨2024, 1, 5⟩, [1, 2, 3, 4, 5], [6, 7], none⟩, 0, 0, 0⟩]
        [⟨⟨⟨[1, 2, 3, 4, 5], [6, 7], none, "consensus".toList, none⟩, none⟩, 1, 1, 1⟩]
        2 2) (by decide)⟩

/-- Witness for C5: appending a sixth main token or a third euro token
leaves the parse unchanged, and a whitespace-only line is skipped. -/
theorem text_format_witness :
    parseTextFields "2024-01-05".toList "1 2 3 4 5 99".toList "6 7".toList
      = parseTextFields "2024-01-05".toList "1 2 3 4 5".toList "6 7".toList ∧
    parseTextFields "2024-01-05".toList "1 2 3 4 5".toList "6 7 8".toList
      = parseTextFields "2024-01-05".toList "1 2 3 4 5".toList "6 7".toList ∧
    processItems parseTextLine textSkip (fun i e => ErrorDesc.line (i + 1) e) 0
        ["   ".toList] ⟨[], [], 0, 0⟩
      = processItems parseTextLine textSkip (fun i e => ErrorDesc.line (i + 1) e) 1
        [] ⟨[], [], 0, 0⟩ :=
  ⟨text_format_spec.2.1 _ _ _ _ (by decide),
    text_format_spec.2.2.1 _ _ _ _ (by decide),
    text_format_spec.2.2.2.1 _ (by decide) _ _ 0 [] _⟩

/-- Witness for C6: a row whose first cell reads `Date` is skipped,
contributing neither record nor error. -/
theorem csv_format_witness :
    processItems parseCsvRow csvSkip (fun i e => ErrorDesc.row (i + 1) e) 0
        [["Date".toList, "x".toList]] ⟨[], [], 0, 0⟩
      = processItems parseCsvRow csvSkip (fun i e => ErrorDesc.row (i + 1) e) 1
        [] ⟨[], [], 0, 0⟩ ∧
    csvSkip ["DATE ".toList, "x".toList] = true :=
  ⟨csv_format_spec.1 _ (by decide) _ _ 0 [] _,
    csv_format_spec.2.1 _ _ (by decide)⟩

/-- Witness for C7: with a 2024-01-05 draw stored, adding another draw
for the same date conflicts and changes nothing; and the conflict also
arises right after a successful creation. -/
theorem add_draw_conflict_witness :
    add_draw ⟨[⟨⟨⟨2024, 1, 5⟩, [1, 2, 3, 4, 5], [6, 7], none⟩, 0, 0, 0⟩], [], 1, 1⟩
        ⟨⟨2024, 1, 5⟩, [2, 3, 4, 5, 6], [7, 8], none⟩
      = (⟨[⟨⟨⟨2024, 1, 5⟩, [1, 2, 3, 4, 5], [6, 7], none⟩, 0, 0, 0⟩], [], 1, 1⟩,
          .conflict) ∧
    ((add_draw ⟨[⟨⟨⟨2024, 1, 5⟩, [1, 2, 3, 4, 5], [6, 7], none⟩, 0, 0, 1⟩], [], 1, 2⟩
        ⟨⟨2024, 1, 5⟩, [2, 3, 4, 5, 6], [7, 8], none⟩).2 = .conflict ∧
      (add_draw ⟨[⟨⟨⟨2024, 1, 5⟩, [1, 2, 3, 4, 5], [6, 7], none⟩, 0, 0, 1⟩], [], 1, 2⟩
        ⟨⟨2024, 1, 5⟩, [2, 3, 4, 5, 6], [7, 8], none⟩).1
        = ⟨[⟨⟨⟨2024, 1, 5⟩, [1, 2, 3, 4, 5], [6, 7], none⟩, 0, 0, 1⟩], [], 1, 2⟩) :=
  ⟨add_draw_conflict_spec.1 _ _ ⟨⟨⟨⟨2024, 1, 5⟩, [1, 2, 3, 4, 5], [6, 7], none⟩, 0, 0, 0⟩,
      by decide, by decide⟩,
    add_draw_conflict_spec.2 ⟨[], [], 0, 0⟩ ⟨⟨2024, 1, 5⟩, [1, 2, 3, 4, 5], [6, 7], none⟩
      ⟨[⟨⟨⟨2024, 1, 5⟩, [1, 2, 3, 4, 5], [6, 7], none⟩, 0, 0, 1⟩], [], 1, 2⟩
      ⟨⟨⟨2024, 1, 5⟩, [1, 2, 3, 4, 5], [6, 7], none⟩, 0, 0, 1⟩ (by decide)
      ⟨⟨2024, 1, 5⟩, [2, 3, 4, 5, 6], [7, 8], none⟩ (by decide)⟩

/-- Witness for C10: saving a prediction against an empty store persists
it with `latest_match` absent; against a store holding one draw the
match is attached. -/
theorem save_prediction_witness :
    ((save_prediction ⟨[], [], 0, 0⟩
        ⟨[1, 2, 3, 4, 5], [1, 2], none, "consensus".toList, none⟩).2.data
      = ⟨⟨[1, 2, 3, 4, 5], [1, 2], none, "consensus".toList, none⟩, none⟩ ∧
      (save_prediction ⟨[], [], 0, 0⟩
          ⟨[1, 2, 3, 4, 5], [1, 2], none, "consensus".toList, none⟩).1.preds.map Doc.data
        = (DB.mk [] [] 0 0).preds.map Doc.data
          ++ [⟨⟨[1, 2, 3, 4, 5], [1, 2], none, "consensus".toList, none⟩, none⟩]) ∧
    (∃ l, latestDraw (DB.mk [⟨⟨⟨2024, 1, 5⟩, [1, 2, 3, 4, 5], [6, 7], none⟩, 0, 0, 0⟩]
          [] 1 1).draws = some l ∧
      l ∈ (DB.mk [⟨⟨⟨2024, 1, 5⟩, [1, 2, 3, 4, 5], [6, 7], none⟩, 0, 0, 0⟩] [] 1 1).draws ∧
      (∀ d ∈ (DB.mk [⟨⟨⟨2024, 1, 5⟩, [1, 2, 3, 4, 5], [6, 7], none⟩, 0, 0, 0⟩] [] 1 1).draws,
        PyDate.key d.data.date ≤ PyDate.key l.data.date) ∧
      (save_prediction (DB.mk [⟨⟨⟨2024, 1, 5⟩, [1, 2, 3, 4, 5], [6, 7], none⟩, 0, 0, 0⟩] [] 1 1)
          ⟨[1, 2, 3, 4, 5], [1, 2], none, "consensus".toList, none⟩).2.data
        = ⟨⟨[1, 2, 3, 4, 5], [1, 2], none, "consensus".toList, none⟩,
            some (count_matches ⟨[1, 2, 3, 4, 5], [1, 2]⟩ ⟨l.data.main, l.data.euro⟩)⟩ ∧
      (save_prediction (DB.mk [⟨⟨⟨2024, 1, 5⟩, [1, 2, 3, 4, 5], [6, 7], none⟩, 0, 0, 0⟩] [] 1 1)
          ⟨[1, 2, 3, 4, 5], [1, 2], none, "consensus".toList, none⟩).1.preds.map Doc.data
        = (DB.mk [⟨⟨⟨2024, 1, 5⟩, [1, 2, 3, 4, 5], [6, 7], none⟩, 0, 0, 0⟩] [] 1 1).preds.map
            Doc.data
          ++ [⟨⟨[1, 2, 3, 4, 5], [1, 2], none, "consensus".toList, none⟩,
              some (count_matches ⟨[1, 2, 3, 4, 5], [1, 2]⟩ ⟨l.data.main, l.data.euro⟩)⟩]) :=
  ⟨save_prediction_empty_spec.1 ⟨[], [], 0, 0⟩
      ⟨[1, 2, 3, 4, 5], [1, 2], none, "consensus".toList, none⟩ rfl,
    save_prediction_empty_spec.2
      (DB.mk [⟨⟨⟨2024, 1, 5⟩, [1, 2, 3, 4, 5], [6, 7], none⟩, 0, 0, 0⟩] [] 1 1)
      ⟨[1, 2, 3, 4, 5], [1, 2], none, "consensus".toList, none⟩ (by decide)⟩

end Backend
